import Mathlib

/-!
Shallow embedding of `src/weather.py` (Open-Meteo 7-day forecast CLI).

Temperatures are modelled as rationals (`ℚ`); the Python floats only ever
undergo the exact operations `(a+b)/2`, `t*9/5+32`, sum/length, max, min and
comparisons, so the claims under study are about the exact arithmetic shape.
HTTP effects are modelled by passing the response a call would observe; the
`requests_cache` installation has no observable effect on any output and is
represented only by the (unused) `use_cache` flag, as in the source.
-/

namespace Weather

/-- The `"daily"` object of the Open-Meteo forecast response body.
`none` models an absent JSON field. -/
structure DailyPayload where
  temperature_2m_max : Option (List ℚ)
  temperature_2m_min : Option (List ℚ)
  time : Option (List String)
deriving Repr, DecidableEq

/-- A weather-endpoint HTTP response: status code, body text, and the parsed
JSON `daily` field (absent when the body has no `"daily"` key). -/
structure WeatherResponse where
  status_code : ℕ
  text : String
  daily : Option DailyPayload
deriving Repr, DecidableEq

/-- `data.get("daily", {})`: the payload, defaulting to an empty object. -/
def dailyOf (resp : WeatherResponse) : DailyPayload :=
  resp.daily.getD ⟨none, none, none⟩

/-- Python truthiness of an optional list (`not x` in the source):
`None` and `[]` are falsy, a non-empty list is truthy. -/
def truthy {α : Type} : Option (List α) → Bool
  | none => false
  | some l => !l.isEmpty

/-- Errors raised by `fetch_daily_mean_temperature` (both are `RuntimeError`
in the source; we distinguish them by their message). -/
inductive FetchError where
  | requestFailed (status : ℕ) (text : String)
  | missingData
deriving Repr, DecidableEq

/-- The message carried by the `RuntimeError` of each fetch failure. -/
def fetchErrorMessage : FetchError → String
  | .requestFailed status tx =>
      "Open-Meteo request failed: " ++ toString status ++ " " ++ tx
  | .missingData => "No daily temperature data returned from Open-Meteo"

/-- Line 57: `[float((mx + mn) / 2.0) for mx, mn in zip(tmax, tmin)]`.
`zip` stops at the shorter list. -/
def dailyMeans (tmax tmin : List ℚ) : List ℚ :=
  List.zipWith (fun mx mn => (mx + mn) / 2) tmax tmin

/-- Lines 24–59 of `weather.py`. `resp` is the HTTP response the call
observes; `use_cache` only installs the response cache in the source and has
no observable effect on the result. -/
def fetch_daily_mean_temperature (resp : WeatherResponse) (use_cache : Bool) :
    Except FetchError (List ℚ × List ℚ × List ℚ × List String) :=
  let _ := use_cache
  if resp.status_code ≠ 200 then
    .error (.requestFailed resp.status_code resp.text)
  else
    let tmax := (dailyOf resp).temperature_2m_max
    let tmin := (dailyOf resp).temperature_2m_min
    let dates := (dailyOf resp).time
    if !truthy tmax || !truthy tmin || !truthy dates then
      .error .missingData
    else
      .ok (dailyMeans (tmax.getD []) (tmin.getD []),
           tmax.getD [], tmin.getD [], dates.getD [])

/-- One entry of the geocoding response's `results` array. -/
structure GeoResult where
  latitude : ℚ
  longitude : ℚ
deriving Repr, DecidableEq

/-- A geocoding-endpoint HTTP response. -/
structure GeoResponse where
  status_code : ℕ
  text : String
  results : Option (List GeoResult)
deriving Repr, DecidableEq

/-- Errors raised by `geocode_city` (both `RuntimeError` in the source). -/
inductive GeoError where
  | requestFailed (status : ℕ) (text : String)
  | noResults (city : String)
deriving Repr, DecidableEq

/-- Lines 62–76 of `weather.py`: resolve a city to `(lat, lon)` given the
response the geocoding GET observes. `if not results` treats both an absent
and an empty `results` array as failure; on success the first match wins. -/
def geocode_city (resp : GeoResponse) (city : String) :
    Except GeoError (ℚ × ℚ) :=
  if resp.status_code ≠ 200 then
    .error (.requestFailed resp.status_code resp.text)
  else
    match resp.results with
    | none => .error (.noResults city)
    | some [] => .error (.noResults city)
    | some (loc :: _) => .ok (loc.latitude, loc.longitude)

/-- The dictionary returned by `compute_stats` (line 79–88). -/
structure Stats where
  highest_c : ℚ
  lowest_c : ℚ
  average_c : ℚ
  fahrenheit : List ℚ
  days_above_20c : ℕ
  count : ℕ
deriving Repr, DecidableEq

/-- `int((arr > 20).sum())`: the NumPy boolean mask `arr > 20` summed. -/
def maskCountAbove20 (l : List ℚ) : ℕ :=
  (l.map (fun t => if 20 < t then 1 else 0)).sum

/-- Lines 79–88 of `weather.py`. `np.max`/`np.min` raise `ValueError` on an
empty array, so the empty case yields `none` (an uncaught exception). -/
def compute_stats (temps_celsius : List ℚ) : Option Stats :=
  match temps_celsius with
  | [] => none
  | x :: xs =>
    some {
      highest_c := xs.foldl max x
      lowest_c := xs.foldl min x
      average_c := (x :: xs).sum / ((x :: xs).length : ℚ)
      fahrenheit := (x :: xs).map (fun t => t * 9 / 5 + 32)
      days_above_20c := maskCountAbove20 (x :: xs)
      count := (x :: xs).length }

/-- The parsed command-line arguments (lines 92–101). `argparse` leaves an
unset option at `None`; `--start`/`--end` always carry their defaults. -/
structure Args where
  lat : Option ℚ
  lon : Option ℚ
  city : Option String
  start : String
  endDate : String
  no_cache : Bool
deriving Repr, DecidableEq

/-- The outside world one invocation of `main` observes: the geocoding
response for any city name, the weather response for any query, and the line
`input()` would read. -/
structure Env where
  geocodeResp : String → GeoResponse
  weatherResp : ℚ → ℚ → String → String → WeatherResponse
  stdinLine : String

/-- Python truthiness of `args.city` (`if args.city:`): `None` and the empty
string are falsy. -/
def strTruthy : Option String → Bool
  | none => false
  | some s => !s.isEmpty

/-- Lines 103–111: location resolution — city (if truthy), else explicit
lat/lon (if both set, `is not None`), else prompt for a city and geocode. -/
def resolveLocation (args : Args) (env : Env) : Except GeoError (ℚ × ℚ) :=
  if strTruthy args.city then
    let c := args.city.getD ""
    geocode_city (env.geocodeResp c) c
  else
    match args.lat, args.lon with
    | some lat, some lon => .ok (lat, lon)
    | _, _ =>
      let c := env.stdinLine.trim
      geocode_city (env.geocodeResp c) c

/-- One `print(...)` to standard output, with the data it renders; rounding
to two decimals (`round(x, 2)` / `np.round(..., 2)`) is display-only. -/
inductive Line where
  | noData
  | datesHeader (first last : String) (count : ℕ)
  | dailyMax (vals : List ℚ)
  | dailyMin (vals : List ℚ)
  | highest (v : ℚ)
  | lowest (v : ℚ)
  | average (v : ℚ)
  | fahrenheitLine (vals : List ℚ)
  | daysAbove (n : ℕ)
deriving Repr, DecidableEq

/-- Round to two decimal places. Python's `round` uses banker's rounding and
Mathlib's `round` rounds halves up; they differ only at exact `.xx5` values,
which no claim depends on. -/
def round2 (q : ℚ) : ℚ := (round (q * 100) : ℤ) / 100

/-- An exception `main` does not catch (the process aborts abnormally). -/
inductive Crash where
  | uncaught (e : GeoError)
  | emptyStats
  | indexError
deriving Repr, DecidableEq

/-- Outcome of a completed `main`: its return value (the exit status) and
what it printed to standard output and standard error. -/
structure MainResult where
  exit_code : ℤ
  stdout : List Line
  stderr : List String
deriving Repr, DecidableEq

/-- Lines 119–134 of `main`: the empty-result check, the statistics call and
the report. `dates[0]`/`dates[-1]` on an empty list would raise `IndexError`;
`compute_stats` on an empty list would raise inside NumPy. -/
def reportStage (temps tmax tmin : List ℚ) (dates : List String) :
    Except Crash MainResult :=
  if temps.length = 0 then
    .ok { exit_code := 1, stdout := [.noData], stderr := [] }
  else
    match compute_stats temps with
    | none => .error .emptyStats
    | some stats =>
      match dates.head?, dates.getLast? with
      | some first, some last =>
        .ok { exit_code := 0,
              stdout := [
                .datesHeader first last stats.count,
                .dailyMax (tmax.map round2),
                .dailyMin (tmin.map round2),
                .highest stats.highest_c,
                .lowest stats.lowest_c,
                .average stats.average_c,
                .fahrenheitLine (stats.fahrenheit.map round2),
                .daysAbove stats.days_above_20c],
              stderr := [] }
      | _, _ => .error .indexError

/-- Lines 91–134 of `weather.py` after argument parsing: resolve the
location (geocoding failures propagate uncaught), fetch (any failure is
caught, printed to stderr, exit 2), then the report stage. -/
def main (args : Args) (env : Env) : Except Crash MainResult :=
  match resolveLocation args env with
  | .error e => .error (.uncaught e)
  | .ok (lat, lon) =>
    match fetch_daily_mean_temperature
        (env.weatherResp lat lon args.start args.endDate) (!args.no_cache) with
    | .error e =>
      .ok { exit_code := 2, stdout := [],
            stderr := ["Error fetching temperatures: " ++ fetchErrorMessage e] }
    | .ok (temps, tmax, tmin, dates) => reportStage temps tmax tmin dates

/-! ### Concrete inputs used to instantiate the theorems -/

/-- The spec's worked example mean series `[18.0, 20.0, 22.5, 15.0]`. -/
def exampleList : List ℚ := [18, 20, 45/2, 15]

/-- Fallback record used only to name concrete `compute_stats` outputs. -/
def defaultStats : Stats := ⟨0, 0, 0, [], 0, 0⟩

/-- The reducer's output on the spec's worked example. -/
def exampleStats : Stats := (compute_stats exampleList).getD defaultStats

/-- The reducer's output on the single mean `0 °C`. -/
def zeroStats : Stats := (compute_stats [(0 : ℚ)]).getD defaultStats

/-- The reducer's output on the single mean `100 °C`. -/
def hundredStats : Stats := (compute_stats [(100 : ℚ)]).getD defaultStats

/-- A 200 weather response whose max/min arrays are present but empty. -/
def emptyArraysResp : WeatherResponse :=
  ⟨200, "", some ⟨some [], some [], some ["2026-10-12"]⟩⟩

/-- A well-formed 200 weather response with two days of data. -/
def goodResp : WeatherResponse :=
  ⟨200, "", some ⟨some [10, 20], some [0, 10],
    some ["2026-10-12", "2026-10-13"]⟩⟩

/-- A 500 weather response. -/
def failedResp : WeatherResponse := ⟨500, "Internal Server Error", none⟩

/-- A 200 weather response with non-empty temperature series but an empty
date-label series. -/
def emptyDatesResp : WeatherResponse :=
  ⟨200, "", some ⟨some [1], some [1], some []⟩⟩

/-- Arguments selecting explicit coordinates, no city. -/
def coordArgs : Args :=
  { lat := some 0, lon := some 0, city := none,
    start := "2026-10-12", endDate := "2026-10-18", no_cache := false }

/-- Arguments supplying both an empty city string and coordinates. -/
def emptyCityArgs : Args :=
  { lat := some 1, lon := some 2, city := some "",
    start := "2026-10-12", endDate := "2026-10-18", no_cache := false }

/-- Arguments supplying both a non-empty city and coordinates. -/
def cityAndCoordArgs : Args :=
  { lat := some 1, lon := some 2, city := some "London",
    start := "2026-10-12", endDate := "2026-10-18", no_cache := false }

/-- An environment whose weather endpoint always answers `resp` and whose
geocoder resolves every city to `(5, 6)`. -/
def envWith (resp : WeatherResponse) : Env :=
  { geocodeResp := fun _ => ⟨200, "", some [⟨5, 6⟩]⟩,
    weatherResp := fun _ _ _ _ => resp,
    stdinLine := "London" }

/-- The `MissingData` condition exactly as claim C3 states it: the response
lacks one of the three series, or either temperature series is empty. It
says nothing about an empty date-label series. -/
def claimedMissingCond (resp : WeatherResponse) : Prop :=
  (dailyOf resp).temperature_2m_max = none ∨
  (dailyOf resp).temperature_2m_min = none ∨
  (dailyOf resp).time = none ∨
  (dailyOf resp).temperature_2m_max = some [] ∨
  (dailyOf resp).temperature_2m_min = some []

/-! ### Helper lemmas -/

theorem truthy_eq_true {α : Type} {o : Option (List α)} :
    truthy o = true ↔ ∃ l, o = some l ∧ l ≠ [] := by
  cases o with
  | none => simp [truthy]
  | some l => simp [truthy]

theorem truthy_some {α : Type} {l : List α} (h : l ≠ []) :
    truthy (some l) = true := truthy_eq_true.mpr ⟨l, rfl, h⟩

/-- Inversion of a successful fetch: the status was 200, all three series
were present and non-empty, and the means are the zipped averages. -/
theorem fetch_ok_elim {resp : WeatherResponse} {uc : Bool}
    {means mx mn : List ℚ} {ds : List String}
    (hok : fetch_daily_mean_temperature resp uc = .ok (means, mx, mn, ds)) :
    resp.status_code = 200 ∧
    (dailyOf resp).temperature_2m_max = some mx ∧ mx ≠ [] ∧
    (dailyOf resp).temperature_2m_min = some mn ∧ mn ≠ [] ∧
    (dailyOf resp).time = some ds ∧ ds ≠ [] ∧
    means = dailyMeans mx mn := by
  obtain ⟨st, tx, daily⟩ := resp
  by_cases h200 : st = 200
  · subst h200
    rcases daily with _ | ⟨fmx, fmn, ft⟩
    · simp [fetch_daily_mean_temperature, dailyOf, truthy] at hok
    · rcases fmx with _ | (_ | ⟨a, as⟩) <;>
        rcases fmn with _ | (_ | ⟨b, bs⟩) <;>
        rcases ft with _ | (_ | ⟨c, cs⟩) <;>
        simp_all [fetch_daily_mean_temperature, dailyOf, truthy]
      obtain ⟨h1, h2, h3, h4⟩ := hok
      subst h1 h2 h3 h4
      simp
  · simp [fetch_daily_mean_temperature, h200] at hok

/-- A well-formed 200 response makes the fetch succeed with the zipped
means. -/
theorem fetch_ok_intro (tx : String) {mx mn : List ℚ} {ds : List String}
    (uc : Bool) (hmx : mx ≠ []) (hmn : mn ≠ []) (hds : ds ≠ []) :
    fetch_daily_mean_temperature ⟨200, tx, some ⟨some mx, some mn, some ds⟩⟩ uc =
      .ok (dailyMeans mx mn, mx, mn, ds) := by
  unfold fetch_daily_mean_temperature
  dsimp only [dailyOf, Option.getD_some]
  rw [if_neg (by simp), if_neg (by simp [truthy_some, hmx, hmn, hds])]

theorem le_foldl_max (x : ℚ) (xs : List ℚ) : x ≤ xs.foldl max x := by
  induction xs generalizing x with
  | nil => exact le_refl x
  | cons y ys ih => exact le_trans (le_max_left x y) (ih (max x y))

theorem foldl_min_le (x : ℚ) (xs : List ℚ) : xs.foldl min x ≤ x := by
  induction xs generalizing x with
  | nil => exact le_refl x
  | cons y ys ih => exact le_trans (ih (min x y)) (min_le_left x y)

theorem sum_le_length_mul_foldl_max (x : ℚ) (xs : List ℚ) :
    (x :: xs).sum ≤ ((x :: xs).length : ℚ) * xs.foldl max x := by
  induction xs generalizing x with
  | nil => simp
  | cons y ys ih =>
    have h1 := ih (max x y)
    have h2 : max x y ≤ List.foldl max (max x y) ys := le_foldl_max _ _
    have hx : x ≤ max x y := le_max_left x y
    have hy : y ≤ max x y := le_max_right x y
    simp only [List.sum_cons, List.length_cons, List.foldl_cons] at h1 ⊢
    push_cast at h1 ⊢
    linarith

theorem length_mul_foldl_min_le_sum (x : ℚ) (xs : List ℚ) :
    ((x :: xs).length : ℚ) * xs.foldl min x ≤ (x :: xs).sum := by
  induction xs generalizing x with
  | nil => simp
  | cons y ys ih =>
    have h1 := ih (min x y)
    have h2 : List.foldl min (min x y) ys ≤ min x y := foldl_min_le _ _
    have hx : min x y ≤ x := min_le_left x y
    have hy : min x y ≤ y := min_le_right x y
    simp only [List.sum_cons, List.length_cons, List.foldl_cons] at h1 ⊢
    push_cast at h1 ⊢
    linarith

theorem maskCountAbove20_eq_countP (l : List ℚ) :
    maskCountAbove20 l = l.countP (fun t => decide (20 < t)) := by
  induction l with
  | nil => rfl
  | cons x xs ih =>
    simp only [maskCountAbove20, List.map_cons, List.sum_cons,
      List.countP_cons] at ih ⊢
    by_cases h : (20 : ℚ) < x
    · simp [h, ih]
      omega
    · simp [h, ih]

/-- A successful fetch always carries a non-empty mean series. -/
theorem fetch_ok_means_ne_nil {resp : WeatherResponse} {uc : Bool}
    {means mx mn : List ℚ} {ds : List String}
    (hok : fetch_daily_mean_temperature resp uc = .ok (means, mx, mn, ds)) :
    means ≠ [] := by
  obtain ⟨-, -, hmx, -, hmn, -, -, hmeans⟩ := fetch_ok_elim hok
  subst hmeans
  have h1 : 0 < mx.length := List.length_pos.mpr hmx
  have h2 : 0 < mn.length := List.length_pos.mpr hmn
  have h3 : 0 < (dailyMeans mx mn).length := by
    simp only [dailyMeans, List.length_zipWith]
    omega
  exact List.length_pos.mp h3

/-- The report stage returns exit status 0 on every non-crashing run over a
non-empty mean series. -/
theorem reportStage_ok_exit_code {temps tmax tmin : List ℚ}
    {dates : List String} {r : MainResult}
    (hne : temps ≠ []) (h : reportStage temps tmax tmin dates = .ok r) :
    r.exit_code = 0 := by
  cases temps with
  | nil => exact absurd rfl hne
  | cons x xs =>
    unfold reportStage at h
    rw [if_neg (by simp)] at h
    simp only [compute_stats] at h
    split at h
    · injection h with h'
      subst h'
      rfl
    · exact absurd h (by simp)

/-! ### Claim theorems -/

/-- C1 counterexample: empty max/min arrays from the weather endpoint do NOT
lead to the "no data" report with exit status 1; the fetcher raises on them,
so the entry point reports a fetch error and returns exit status 2. -/
theorem empty_arrays_exit2_cex :
    main coordArgs (envWith emptyArraysResp) =
      .ok { exit_code := 2, stdout := [],
            stderr := ["Error fetching temperatures: No daily temperature data returned from Open-Meteo"] } ∧
    (2 : ℤ) ≠ 1 := by
  exact ⟨rfl, by norm_num⟩

/-- C1 (amended): if the mean series reaching the entry point's post-fetch
stage is empty, that stage prints the "no data" message and returns exit
status 1 without invoking the statistics reducer (which has no value on an
empty series, yet the stage completes normally). -/
theorem empty_means_reportStage_exit1 (temps tmax tmin : List ℚ)
    (dates : List String) (h : temps = []) :
    reportStage temps tmax tmin dates =
      .ok { exit_code := 1, stdout := [.noData], stderr := [] } ∧
    compute_stats temps = none := by
  subst h
  exact ⟨rfl, rfl⟩

/-- C1 witness: the amended statement at the concrete empty series. -/
theorem empty_means_reportStage_exit1_witness :
    reportStage [] [] [] [] =
      .ok { exit_code := 1, stdout := [.noData], stderr := [] } ∧
    compute_stats ([] : List ℚ) = none :=
  empty_means_reportStage_exit1 [] [] [] [] rfl

/-- C2: whenever the fetcher succeeds and its max/min series have equal
length, the mean series has that same length and `mean[i] = (max[i] +
min[i]) / 2` exactly (no rounding). -/
theorem fetch_mean_series_pointwise (resp : WeatherResponse) (uc : Bool)
    (means mx mn : List ℚ) (ds : List String)
    (hok : fetch_daily_mean_temperature resp uc = .ok (means, mx, mn, ds))
    (hlen : mx.length = mn.length) :
    means.length = mx.length ∧
    ∀ i mxv mnv, mx.get? i = some mxv → mn.get? i = some mnv →
      means.get? i = some ((mxv + mnv) / 2) := by
  obtain ⟨-, -, -, -, -, -, -, hmeans⟩ := fetch_ok_elim hok
  subst hmeans
  constructor
  · simp [dailyMeans, List.length_zipWith, hlen]
  · intro i mxv mnv h1 h2
    rw [List.get?_eq_getElem?] at h1 h2 ⊢
    simp [dailyMeans, List.getElem?_zipWith', h1, h2]

/-- C2 witness: the pointwise law at a concrete two-day response. -/
theorem fetch_mean_series_pointwise_witness :
    (dailyMeans [10, 20] [0, 10]).length = ([10, 20] : List ℚ).length ∧
    (dailyMeans [10, 20] [0, 10]).get? 0 = some (((10 : ℚ) + 0) / 2) := by
  have h := fetch_mean_series_pointwise goodResp true
    (dailyMeans [10, 20] [0, 10]) [10, 20] [0, 10]
    ["2026-10-12", "2026-10-13"] rfl rfl
  exact ⟨h.1, h.2 0 10 0 rfl rfl⟩

/-- C3 counterexample: with non-empty temperature series but an empty
date-label series the fetcher fails with `MissingData`, although the
claim's "exactly when" condition does not hold there. -/
theorem missingData_empty_dates_cex :
    fetch_daily_mean_temperature emptyDatesResp true = .error .missingData ∧
    ¬ claimedMissingCond emptyDatesResp := by
  refine ⟨rfl, ?_⟩
  simp [claimedMissingCond, dailyOf, emptyDatesResp]

/-- C3 (amended): on a 200 response the fetcher fails with `MissingData`
exactly when one of the three series is absent OR empty — including an empty
date-label series — and otherwise returns the four aligned sequences. -/
theorem fetch_missingData_characterization (resp : WeatherResponse)
    (uc : Bool) (h200 : resp.status_code = 200) :
    (fetch_daily_mean_temperature resp uc = .error .missingData ↔
      ((dailyOf resp).temperature_2m_max = none ∨
       (dailyOf resp).temperature_2m_max = some [] ∨
       (dailyOf resp).temperature_2m_min = none ∨
       (dailyOf resp).temperature_2m_min = some [] ∨
       (dailyOf resp).time = none ∨
       (dailyOf resp).time = some [])) ∧
    (∀ (mx mn : List ℚ) (ds : List String),
      (dailyOf resp).temperature_2m_max = some mx → mx ≠ [] →
      (dailyOf resp).temperature_2m_min = some mn → mn ≠ [] →
      (dailyOf resp).time = some ds → ds ≠ [] →
      fetch_daily_mean_temperature resp uc =
        .ok (dailyMeans mx mn, mx, mn, ds)) := by
  obtain ⟨st, tx, daily⟩ := resp
  simp only [WeatherResponse.status_code] at h200
  subst h200
  rcases daily with _ | ⟨fmx, fmn, ft⟩
  · constructor
    · simp [fetch_daily_mean_temperature, dailyOf, truthy]
    · intro mx mn ds hmx
      simp [dailyOf] at hmx
  · rcases fmx with _ | (_ | ⟨a, as⟩) <;>
      rcases fmn with _ | (_ | ⟨b, bs⟩) <;>
      rcases ft with _ | (_ | ⟨c, cs⟩) <;>
      constructor <;>
      simp [fetch_daily_mean_temperature, dailyOf, truthy]
    all_goals
      intros
      simp_all

/-- C3 witness: the amended characterization instantiated at the empty-dates
response and at a well-formed response. -/
theorem fetch_missingData_characterization_witness :
    fetch_daily_mean_temperature emptyDatesResp true = .error .missingData ∧
    fetch_daily_mean_temperature goodResp true =
      .ok (dailyMeans [10, 20] [0, 10], [10, 20], [0, 10],
        ["2026-10-12", "2026-10-13"]) := by
  constructor
  · exact (fetch_missingData_characterization emptyDatesResp true rfl).1.mpr
      (by simp [dailyOf, emptyDatesResp])
  · exact (fetch_missingData_characterization goodResp true rfl).2
      [10, 20] [0, 10] ["2026-10-12", "2026-10-13"]
      rfl (by simp) rfl (by simp) rfl (by simp)

/-- C4: the reducer's outputs on any non-empty mean series satisfy
`lowest_c ≤ average_c ≤ highest_c`. -/
theorem stats_lowest_le_average_le_highest (l : List ℚ) (s : Stats)
    (h : compute_stats l = some s) :
    s.lowest_c ≤ s.average_c ∧ s.average_c ≤ s.highest_c := by
  cases l with
  | nil => simp [compute_stats] at h
  | cons x xs =>
    simp only [compute_stats, Option.some.injEq] at h
    subst h
    have hlen : (0 : ℚ) < (((x :: xs).length : ℕ) : ℚ) := by
      have hp : 0 < (x :: xs).length := Nat.succ_pos xs.length
      exact_mod_cast hp
    constructor
    · show List.foldl min x xs ≤ (x :: xs).sum / (((x :: xs).length : ℕ) : ℚ)
      rw [le_div_iff₀ hlen]
      calc List.foldl min x xs * (((x :: xs).length : ℕ) : ℚ)
          = (((x :: xs).length : ℕ) : ℚ) * List.foldl min x xs := by ring
        _ ≤ (x :: xs).sum := length_mul_foldl_min_le_sum x xs
    · show (x :: xs).sum / (((x :: xs).length : ℕ) : ℚ) ≤ List.foldl max x xs
      rw [div_le_iff₀ hlen]
      calc (x :: xs).sum
          ≤ (((x :: xs).length : ℕ) : ℚ) * List.foldl max x xs :=
            sum_le_length_mul_foldl_max x xs
        _ = List.foldl max x xs * (((x :: xs).length : ℕ) : ℚ) := by ring

/-- C4 witness: the ordering at the spec's worked example. -/
theorem stats_lowest_le_average_le_highest_witness :
    exampleStats.lowest_c ≤ exampleStats.average_c ∧
    exampleStats.average_c ≤ exampleStats.highest_c :=
  stats_lowest_le_average_le_highest exampleList exampleStats rfl

/-- C5: `days_above_20c` is the count of elements strictly above 20 °C, and
an element exactly equal to 20 °C is never counted (prepending one leaves
the mask count unchanged). -/
theorem days_above_20c_strict_count (l : List ℚ) (s : Stats)
    (h : compute_stats l = some s) :
    s.days_above_20c = (l.filter (fun t => decide (20 < t))).length ∧
    maskCountAbove20 ((20 : ℚ) :: l) = maskCountAbove20 l := by
  constructor
  · cases l with
    | nil => simp [compute_stats] at h
    | cons x xs =>
      simp only [compute_stats, Option.some.injEq] at h
      subst h
      dsimp
      rw [maskCountAbove20_eq_countP]
      exact List.countP_eq_length_filter _ _
  · simp [maskCountAbove20]

/-- C5 witness: on the spec's example `[18, 20, 22.5, 15]` exactly one day
counts — the boundary value 20 is excluded. -/
theorem days_above_20c_strict_count_witness :
    exampleStats.days_above_20c =
      (exampleList.filter (fun t => decide (20 < t))).length ∧
    maskCountAbove20 ((20 : ℚ) :: exampleList) = maskCountAbove20 exampleList :=
  days_above_20c_strict_count exampleList exampleStats rfl

/-- C6: the Fahrenheit series is the index-aligned affine image
`t * 9 / 5 + 32` of the mean series; `0 °C ↦ 32 °F` and `100 °C ↦ 212 °F`
exactly. -/
theorem fahrenheit_affine_map (l : List ℚ) (s : Stats)
    (h : compute_stats l = some s) :
    s.fahrenheit.length = l.length ∧
    (∀ i v, l.get? i = some v → s.fahrenheit.get? i = some (v * 9 / 5 + 32)) ∧
    (∀ s0, compute_stats [(0 : ℚ)] = some s0 → s0.fahrenheit = [32]) ∧
    (∀ s1, compute_stats [(100 : ℚ)] = some s1 → s1.fahrenheit = [212]) := by
  refine ⟨?_, ?_, ?_, ?_⟩
  · cases l with
    | nil => simp [compute_stats] at h
    | cons x xs =>
      simp only [compute_stats, Option.some.injEq] at h
      subst h
      simp
  · intro i v hv
    have hfl : s.fahrenheit = l.map (fun t => t * 9 / 5 + 32) := by
      cases l with
      | nil => simp [compute_stats] at h
      | cons x xs =>
        simp only [compute_stats, Option.some.injEq] at h
        subst h
        rfl
    rw [hfl]
    rw [List.get?_eq_getElem?] at hv ⊢
    simp [List.getElem?_map, hv]
  · intro s0 h0
    simp only [compute_stats, Option.some.injEq] at h0
    subst h0
    show [(0 : ℚ) * 9 / 5 + 32] = [32]
    norm_num
  · intro s1 h1
    simp only [compute_stats, Option.some.injEq] at h1
    subst h1
    show [(100 : ℚ) * 9 / 5 + 32] = [212]
    norm_num

/-- C6 witness: affine map, length and the two fixed conversions at the
spec's worked example. -/
theorem fahrenheit_affine_map_witness :
    exampleStats.fahrenheit.length = exampleList.length ∧
    exampleStats.fahrenheit.get? 0 = some ((18 : ℚ) * 9 / 5 + 32) ∧
    zeroStats.fahrenheit = [32] ∧
    hundredStats.fahrenheit = [212] := by
  have h := fahrenheit_affine_map exampleList exampleStats rfl
  exact ⟨h.1, h.2.1 0 18 rfl, h.2.2.1 zeroStats rfl, h.2.2.2 hundredStats rfl⟩

/-- C7: a non-200 status makes the fetch fail with `RequestFailed` carrying
the status code and body text, and the entry point converts every
weather-fetch failure into a stderr message plus exit status 2. -/
theorem requestFailed_and_exit2 :
    (∀ (resp : WeatherResponse) (uc : Bool), resp.status_code ≠ 200 →
      fetch_daily_mean_temperature resp uc =
        .error (.requestFailed resp.status_code resp.text)) ∧
    (∀ (args : Args) (env : Env) (lat lon : ℚ) (e : FetchError),
      resolveLocation args env = .ok (lat, lon) →
      fetch_daily_mean_temperature
        (env.weatherResp lat lon args.start args.endDate) (!args.no_cache) =
        .error e →
      main args env =
        .ok { exit_code := 2, stdout := [],
              stderr := ["Error fetching temperatures: " ++
                fetchErrorMessage e] }) := by
  constructor
  · intro resp uc h
    unfold fetch_daily_mean_temperature
    rw [if_pos h]
  · intro args env lat lon e hres hfetch
    unfold main
    rw [hres]
    dsimp only
    rw [hfetch]

/-- C7 witness: a 500 response yields `RequestFailed 500` and the entry
point exits with status 2 and the stderr message. -/
theorem requestFailed_and_exit2_witness :
    fetch_daily_mean_temperature failedResp true =
      .error (.requestFailed 500 "Internal Server Error") ∧
    main coordArgs (envWith failedResp) =
      .ok { exit_code := 2, stdout := [],
            stderr := ["Error fetching temperatures: " ++
              fetchErrorMessage (.requestFailed 500 "Internal Server Error")] } := by
  constructor
  · exact requestFailed_and_exit2.1 failedResp true (by norm_num [failedResp])
  · exact requestFailed_and_exit2.2 coordArgs (envWith failedResp) 0 0
      (.requestFailed 500 "Internal Server Error") rfl rfl

/-- C8 counterexample: with `--city ""` plus coordinates, the resolved
location is the supplied coordinates `(1, 2)` and not the geocoded result
`(5, 6)` — an empty city string falls through the truthiness check. -/
theorem city_priority_empty_string_cex :
    emptyCityArgs.city = some "" ∧
    resolveLocation emptyCityArgs (envWith goodResp) = .ok (1, 2) ∧
    geocode_city ((envWith goodResp).geocodeResp "") "" = .ok (5, 6) ∧
    (Except.ok ((1 : ℚ), (2 : ℚ)) : Except GeoError (ℚ × ℚ)) ≠ .ok (5, 6) := by
  refine ⟨rfl, rfl, rfl, ?_⟩
  simp only [ne_eq, Except.ok.injEq, Prod.mk.injEq, not_and]
  intro h
  norm_num at h

/-- C8 (amended): whenever a NON-EMPTY city name is supplied, the resolved
location is exactly the geocoded result for that city, and any supplied
latitude/longitude are ignored. -/
theorem city_priority_nonempty (args : Args) (env : Env) (c : String)
    (hc : args.city = some c) (hne : c ≠ "") :
    resolveLocation args env = geocode_city (env.geocodeResp c) c := by
  have hE : c.isEmpty = false := by
    rw [Bool.eq_false_iff]
    intro hh
    exact hne ((String.isEmpty_iff c).mp hh)
  unfold resolveLocation
  rw [hc]
  rw [if_pos (by simp [strTruthy, hE])]
  rfl

/-- C8 witness: with both a non-empty city and coordinates supplied, the
resolved location is the geocoded one. -/
theorem city_priority_nonempty_witness :
    resolveLocation cityAndCoordArgs (envWith goodResp) =
      geocode_city ((envWith goodResp).geocodeResp "London") "London" :=
  city_priority_nonempty cityAndCoordArgs (envWith goodResp) "London" rfl
    (by decide)

/-- C9: a successful fetch always returns a non-empty mean series, so the
entry point's empty-result branch is unreachable: no completed `main` run
returns exit status 1. -/
theorem fetch_success_exit1_unreachable :
    (∀ (resp : WeatherResponse) (uc : Bool) (means mx mn : List ℚ)
      (ds : List String),
      fetch_daily_mean_temperature resp uc = .ok (means, mx, mn, ds) →
      means ≠ []) ∧
    (∀ (args : Args) (env : Env) (r : MainResult),
      main args env = .ok r → r.exit_code ≠ 1) := by
  refine ⟨fun _ _ _ _ _ _ hok => fetch_ok_means_ne_nil hok, ?_⟩
  intro args env r hmain
  unfold main at hmain
  split at hmain
  · exact absurd hmain (by simp)
  · split at hmain
    · injection hmain with h'
      subst h'
      norm_num
    · next temps tmax tmin dates hfetch =>
      have hne : temps ≠ [] := fetch_ok_means_ne_nil hfetch
      have h0 := reportStage_ok_exit_code hne hmain
      omega

/-- C9 witness: a concrete successful fetch has non-empty means, and a
concrete completed run has exit status other than 1. -/
theorem fetch_success_exit1_unreachable_witness :
    dailyMeans [10, 20] [0, 10] ≠ [] ∧
    (MainResult.mk 2 []
      ["Error fetching temperatures: No daily temperature data returned from Open-Meteo"]).exit_code ≠ 1 := by
  constructor
  · exact fetch_success_exit1_unreachable.1 goodResp true
      (dailyMeans [10, 20] [0, 10]) [10, 20] [0, 10]
      ["2026-10-12", "2026-10-13"] rfl
  · exact fetch_success_exit1_unreachable.2 coordArgs
      (envWith emptyArraysResp) _ rfl

/-- C10: for any non-empty (and possibly unequal-length) max/min arrays in a
well-formed 200 response, the fetch succeeds — no error, no out-of-bounds —
and the mean series is silently truncated to the shorter input. -/
theorem fetch_mismatched_lengths_truncate (tx : String) (uc : Bool)
    (mx mn : List ℚ) (ds : List String)
    (hmx : mx ≠ []) (hmn : mn ≠ []) (hds : ds ≠ []) :
    fetch_daily_mean_temperature
        ⟨200, tx, some ⟨some mx, some mn, some ds⟩⟩ uc =
      .ok (dailyMeans mx mn, mx, mn, ds) ∧
    (dailyMeans mx mn).length = min mx.length mn.length := by
  refine ⟨fetch_ok_intro tx uc hmx hmn hds, ?_⟩
  simp [dailyMeans, List.length_zipWith]

/-- C10 witness: three max values against two min values yield two means. -/
theorem fetch_mismatched_lengths_truncate_witness :
    fetch_daily_mean_temperature
        ⟨200, "", some ⟨some [10, 20, 30], some [0, 10], some ["2026-10-12"]⟩⟩
        true =
      .ok (dailyMeans [10, 20, 30] [0, 10], [10, 20, 30], [0, 10],
        ["2026-10-12"]) ∧
    (dailyMeans [10, 20, 30] [0, 10]).length =
      min ([10, 20, 30] : List ℚ).length ([0, 10] : List ℚ).length :=
  fetch_mismatched_lengths_truncate "" true [10, 20, 30] [0, 10]
    ["2026-10-12"] (by simp) (by simp) (by simp)

end Weather
